import Mathlib

/-
Verification of the workflow orchestration engine of hana-perf.

Shallow embedding of src/src/workflow/core/state.py (WorkflowContext and
WorkflowState), src/src/workflow/core/registry.py (StepDefinition), and
src/src/workflow/steps/base.py plus src/src/workflow/steps/init_workflow.py
(the step execution contract).

Modelling decisions:
- The persisted state document (state.json for one workflow_id) is modelled
  as Store := Option WorkflowContext: none when the file does not exist,
  some c when it holds the serialized context c.  WorkflowState methods
  become functions on Store; methods that raise ValueError return
  Except String; methods that silently no-op on a missing file stay total.
- Python dict values are modelled by the inductive type Val; a Python dict
  is an insertion-ordered association list (Dict) with Python semantics:
  inserting an existing key replaces its value in place, inserting a new key
  appends.
- datetime.now().isoformat() is modelled by an explicit now : String
  argument supplied per operation.
- Writing an HTML fragment file is a filesystem effect outside the state
  document; the model records the fragment path exactly as the code does
  (in the step result and in html_fragments) and drops only the file body.
-/

/-- Val models a Python/JSON value as stored in params, global_data and
step result records: None, bool, int, str, list or dict. -/
inductive Val : Type where
  | vNull : Val
  | vBool : Bool → Val
  | vInt : Int → Val
  | vStr : String → Val
  | vList : List Val → Val
  | vDict : List (String × Val) → Val

/-- Python truthiness of a Val, as used by the `or` chain and the
`if output_data:` / `if html_fragment:` tests in the source. -/
def Val.truthy : Val → Bool
  | .vNull => false
  | .vBool b => b
  | .vInt n => n != 0
  | .vStr s => !s.isEmpty
  | .vList l => !l.isEmpty
  | .vDict d => !d.isEmpty

/-- Python `value is None` test on a Val. -/
def Val.isNull : Val → Bool
  | .vNull => true
  | _ => false

/-- A Python dict with string keys: an insertion-ordered association list. -/
abbrev Dict (α : Type) : Type := List (String × α)

namespace Dict

variable {α : Type}

/-- Python d.get(k): the value bound to the first occurrence of k, if any. -/
def get (d : Dict α) (k : String) : Option α :=
  match d with
  | [] => none
  | (k', v) :: t => if k' = k then some v else get t k

/-- Python d[k] = v: replace the value at an existing key in place,
otherwise append the new binding at the end. -/
def insert (d : Dict α) (k : String) (v : α) : Dict α :=
  match d with
  | [] => [(k, v)]
  | (k', v') :: t => if k' = k then (k', v) :: t else (k', v') :: insert t k v

/-- Python d.update(other): insert every binding of other, left to right. -/
def update (d other : Dict α) : Dict α :=
  other.foldl (fun acc kv => acc.insert kv.1 kv.2) d

/-- The keys of the dict in order. -/
def keys (d : Dict α) : List String := d.map Prod.fst

/-- Well-formedness of a dict produced by Python: keys are pairwise
distinct. -/
def WF (d : Dict α) : Prop := d.keys.Nodup

end Dict

/-- WorkflowStatus from state.py: the lifecycle status of a run. -/
inductive WorkflowStatus : Type where
  | pending
  | running
  | completed
  | failed
  | cancelled
deriving DecidableEq

/-- The string serialized for each WorkflowStatus (its enum value). -/
def statusToStr : WorkflowStatus → String
  | .pending => "pending"
  | .running => "running"
  | .completed => "completed"
  | .failed => "failed"
  | .cancelled => "cancelled"

/-- Python WorkflowStatus(s): recover the enum member from its string value;
none models the ValueError raised on an unknown string. -/
def statusOfStr (s : String) : Option WorkflowStatus :=
  if s = "pending" then some .pending
  else if s = "running" then some .running
  else if s = "completed" then some .completed
  else if s = "failed" then some .failed
  else if s = "cancelled" then some .cancelled
  else none

/-- StepStatus from state.py: the status stored inside a step result. -/
inductive StepStatus : Type where
  | pending
  | running
  | completed
  | skipped
  | failed
deriving DecidableEq

/-- The string serialized for each StepStatus (its enum value). -/
def stepStatusToStr : StepStatus → String
  | .pending => "pending"
  | .running => "running"
  | .completed => "completed"
  | .skipped => "skipped"
  | .failed => "failed"

/-- WorkflowContext from state.py: the persisted execution context of one
run.  step_results maps a step name to a raw string-keyed dict, exactly as
the code stores asdict(StepResult) or hand-built dicts. -/
structure WorkflowContext : Type where
  workflow_id : String
  workflow_type : String
  status : WorkflowStatus
  created_at : String
  updated_at : String
  params : Dict Val
  steps : List String
  current_step_index : Nat
  step_results : Dict (Dict Val)
  global_data : Dict Val
  html_fragments : List String
  output_path : Option String

/-- The serialized form of a WorkflowContext (WorkflowContext.to_dict):
the same fields with status replaced by its string value.  asdict keeps
every key present, so empty collections serialize as empty, never absent. -/
structure ContextDoc : Type where
  workflow_id : String
  workflow_type : String
  status : String
  created_at : String
  updated_at : String
  params : Dict Val
  steps : List String
  current_step_index : Nat
  step_results : Dict (Dict Val)
  global_data : Dict Val
  html_fragments : List String
  output_path : Option String

/-- WorkflowContext.to_dict: asdict(self) with status replaced by
self.status.value. -/
def WorkflowContext.to_dict (c : WorkflowContext) : ContextDoc :=
  { workflow_id := c.workflow_id
    workflow_type := c.workflow_type
    status := statusToStr c.status
    created_at := c.created_at
    updated_at := c.updated_at
    params := c.params
    steps := c.steps
    current_step_index := c.current_step_index
    step_results := c.step_results
    global_data := c.global_data
    html_fragments := c.html_fragments
    output_path := c.output_path }

/-- WorkflowContext.from_dict: data with status parsed back through
WorkflowStatus(data["status"]); none models the ValueError on an unknown
status string. -/
def WorkflowContext.from_dict (d : ContextDoc) : Option WorkflowContext :=
  match statusOfStr d.status with
  | none => none
  | some s =>
    some
      { workflow_id := d.workflow_id
        workflow_type := d.workflow_type
        status := s
        created_at := d.created_at
        updated_at := d.updated_at
        params := d.params
        steps := d.steps
        current_step_index := d.current_step_index
        step_results := d.step_results
        global_data := d.global_data
        html_fragments := d.html_fragments
        output_path := d.output_path }

/-- The persisted state for one workflow_id: none when state.json does not
exist, some c when it holds context c. -/
abbrev Store : Type := Option WorkflowContext

namespace WorkflowState

/-- WorkflowState.exists: true iff persisted state is present. -/
def stateExists (st : Store) : Bool := st.isSome

/-- WorkflowState.load: deserialize the persisted state, none if absent. -/
def load (st : Store) : Option WorkflowContext := st

/-- WorkflowState.create: builds a fresh context with status RUNNING and
current_step_index 0 (all collections empty by dataclass defaults) and
saves it.  The code never reads the prior store: an existing state file is
simply overwritten by save. -/
def create (wid : String) (_st : Store) (workflow_type : String)
    (params : Dict Val) (steps : List String) (now : String) :
    WorkflowContext × Store :=
  let c : WorkflowContext :=
    { workflow_id := wid
      workflow_type := workflow_type
      status := .running
      created_at := now
      updated_at := now
      params := params
      steps := steps
      current_step_index := 0
      step_results := []
      global_data := []
      html_fragments := []
      output_path := none }
  (c, some c)

/-- WorkflowState.set_global_data: load, set one key, save; silently does
nothing when no state exists. -/
def set_global_data (st : Store) (key : String) (value : Val)
    (now : String) : Store :=
  match st with
  | none => none
  | some c =>
    some { c with global_data := c.global_data.insert key value
                  updated_at := now }

/-- WorkflowState.get_global_data: context.global_data.get(key, default),
or the default when no state exists. -/
def get_global_data (st : Store) (key : String) (default : Val) : Val :=
  match st with
  | none => default
  | some c => (c.global_data.get key).getD default

/-- The record stored by start_step: asdict(StepResult(step_name, RUNNING,
started_at)) with status then replaced by its string value; optional
fields default to None and output_data to an empty dict. -/
def runningRec (name now : String) : Dict Val :=
  [("step_name", .vStr name),
   ("status", .vStr (stepStatusToStr .running)),
   ("started_at", .vStr now),
   ("completed_at", .vNull),
   ("output_data", .vDict []),
   ("html_fragment_path", .vNull),
   ("error", .vNull)]

/-- The context mutation performed by start_step on a loaded context:
overwrite the step result for name with a fresh running record and refresh
updated_at.  The cursor and status are untouched. -/
def startedCtx (c : WorkflowContext) (name now : String) : WorkflowContext :=
  { c with step_results := c.step_results.insert name (runningRec name now)
           updated_at := now }

/-- WorkflowState.start_step: raises ValueError when no context exists;
otherwise applies startedCtx and saves. -/
def start_step (wid : String) (st : Store) (name now : String) :
    Except String (WorkflowContext × Store) :=
  match st with
  | none => .error ("Workflow " ++ wid ++ " not found")
  | some c => .ok (startedCtx c name now, some (startedCtx c name now))

/-- The fragment filename prefix f"{index:02d}": two-digit zero padding. -/
def pad2 (n : Nat) : String :=
  if n < 10 then "0" ++ toString n else toString n

/-- The path of the fragment file written by complete_step:
logs/workflows/{wid}/fragments/{index:02d}_{step_name}.html. -/
def fragPath (wid : String) (index : Nat) (name : String) : String :=
  "logs/workflows/" ++ wid ++ "/fragments/" ++ pad2 index ++ "_" ++ name
    ++ ".html"

/-- The context mutation performed by complete_step on a loaded context:
take the existing step result (or a default running record with only
step_name, status and started_at), mark it completed with a completion
timestamp and the output data; when a non-empty html_fragment is given,
record its path on the step result and append it to html_fragments; merge
a non-empty output_data into global_data; advance the cursor by one; set
status COMPLETED when the cursor reaches or passes len(steps). -/
def completedCtx (c : WorkflowContext) (name : String)
    (output_data : Option (Dict Val)) (html_fragment : Option String)
    (now : String) : WorkflowContext :=
  let sr0 : Dict Val :=
      (c.step_results.get name).getD
        [("step_name", .vStr name),
         ("status", .vStr (stepStatusToStr .running)),
         ("started_at", .vStr now)]
    let sr1 : Dict Val :=
      ((sr0.insert "status" (.vStr (stepStatusToStr .completed))).insert
          "completed_at" (.vStr now)).insert
        "output_data" (.vDict (output_data.getD []))
    let hfTruthy : Bool :=
      match html_fragment with
      | some s => !s.isEmpty
      | none => false
    let path : String := fragPath c.workflow_id (c.html_fragments.length + 1) name
    let sr2 : Dict Val :=
      if hfTruthy then sr1.insert "html_fragment_path" (.vStr path) else sr1
    let frags : List String :=
      if hfTruthy then c.html_fragments ++ [path] else c.html_fragments
    let odTruthy : Bool :=
      match output_data with
      | some d => !d.isEmpty
      | none => false
    let gd : Dict Val :=
      if odTruthy then c.global_data.update (output_data.getD []) else c.global_data
    let idx : Nat := c.current_step_index + 1
    { c with step_results := c.step_results.insert name sr2
             global_data := gd
             html_fragments := frags
             current_step_index := idx
             updated_at := now
             status := if c.steps.length ≤ idx then .completed else c.status }

/-- WorkflowState.complete_step: raises ValueError when no context exists;
otherwise applies completedCtx and saves. -/
def complete_step (wid : String) (st : Store) (name : String)
    (output_data : Option (Dict Val)) (html_fragment : Option String)
    (now : String) : Except String (WorkflowContext × Store) :=
  match st with
  | none => .error ("Workflow " ++ wid ++ " not found")
  | some c =>
    .ok (completedCtx c name output_data html_fragment now,
      some (completedCtx c name output_data html_fragment now))

/-- The context mutation performed by fail_step on a loaded context: take
the existing step result (or a default with only step_name and started_at),
mark it failed with the error message and a completion timestamp, set the
overall status FAILED.  The cursor is untouched. -/
def failedCtx (c : WorkflowContext) (name error now : String) :
    WorkflowContext :=
  let sr0 : Dict Val :=
    (c.step_results.get name).getD
      [("step_name", .vStr name), ("started_at", .vStr now)]
  let sr1 : Dict Val :=
    ((sr0.insert "status" (.vStr (stepStatusToStr .failed))).insert
        "completed_at" (.vStr now)).insert "error" (.vStr error)
  { c with step_results := c.step_results.insert name sr1
           status := .failed
           updated_at := now }

/-- WorkflowState.fail_step: raises ValueError when no context exists;
otherwise applies failedCtx and saves. -/
def fail_step (wid : String) (st : Store) (name error now : String) :
    Except String (WorkflowContext × Store) :=
  match st with
  | none => .error ("Workflow " ++ wid ++ " not found")
  | some c => .ok (failedCtx c name error now, some (failedCtx c name error now))

/-- WorkflowState.set_output_path: load, set output_path, save; silently
does nothing when no state exists. -/
def set_output_path (st : Store) (path now : String) : Store :=
  match st with
  | none => none
  | some c => some { c with output_path := some path, updated_at := now }

end WorkflowState

/-- StepType from registry.py: the kind of a step. -/
inductive StepType : Type where
  | init
  | search
  | extract
  | transform
  | analyze
  | generate
  | finalize
deriving DecidableEq

/-- StepDefinition from registry.py: the immutable definition of one step. -/
structure StepDefinition : Type where
  name : String
  display_name : String
  description : String
  step_type : StepType
  mcp_tool_name : String := ""
  inputs : List String := []
  outputs : List String := []
  generates_html : Bool := true
  order : Int := 0
  config : Dict Val := []

/-- The structured content of the string a run method returns to its
caller: workflowMissing is the workflow-not-found message, validationFailed
the input-validation failure message, stepFailed the step-failure message
built by the except clause of BaseStep.run, initFailed the initialization
failure message built by the except clause of InitWorkflowStep.run, and
completed the success report formatted by _format_result from the output
data. -/
inductive RunOutcome : Type where
  | workflowMissing : String → RunOutcome
  | validationFailed : String → RunOutcome
  | stepFailed : String → RunOutcome
  | initFailed : String → RunOutcome
  | completed : Dict Val → RunOutcome

namespace BaseStep

open WorkflowState

/-- BaseStep.get_input: read a key from global_data with default None. -/
def get_input (st : Store) (key : String) : Val :=
  get_global_data st key .vNull

/-- BaseStep.get_param: read a key from the context params with default
None; None when no context exists. -/
def get_param (st : Store) (key : String) : Val :=
  match load st with
  | none => .vNull
  | some c => (c.params.get key).getD .vNull

/-- The value resolved for a declared input key:
self.get_input(key) or self.get_param(key), with Python `or` semantics
(the param is consulted whenever the global value is falsy). -/
def resolveInput (st : Store) (key : String) : Val :=
  let g := get_input st key
  if g.truthy then g else get_param st key

/-- BaseStep.validate_inputs: with no definition, validation passes; else
collect every declared input key whose resolved value is None and fail
with the missing-inputs message when any were collected. -/
def validate_inputs (st : Store) (defn : Option StepDefinition) :
    Bool × String :=
  match defn with
  | none => (true, "")
  | some d =>
    let missing := d.inputs.filter (fun k => (resolveInput st k).isNull)
    if missing.isEmpty then (true, "")
    else (false, "缺少输入数据: " ++ String.intercalate ", " missing)

/-- The except clause of BaseStep.run: a caught exception e is converted to
fail_step(step_name, str(e)) and the failure message is returned; an
exception raised by fail_step itself would escape the except clause. -/
def catchToFail (wid : String) (st : Store) (name e now : String) :
    Except String (RunOutcome × Store) :=
  match fail_step wid st name e now with
  | .error e2 => .error e2
  | .ok (_, st2) => .ok (.stepFailed e, st2)

/-- BaseStep.run: the step execution contract.  The outcomes of the two
abstract collaborators are passed in: execRes is what self.execute()
returns or raises (step logic reads only global_data and params and does
not write the store), htmlRes is what self.generate_html(output_data)
returns or raises.  Flow: reject when no state exists; reject on input
validation failure; start_step; execute; render when the definition asks
for HTML; complete_step; any exception in the try block is caught and
converted to fail_step. -/
def run (wid name : String) (st : Store) (defn : Option StepDefinition)
    (execRes : Except String (Dict Val)) (htmlRes : Except String String)
    (now : String) : Except String (RunOutcome × Store) :=
  match st with
  | none => .ok (.workflowMissing wid, none)
  | some c =>
    let v := validate_inputs (some c) defn
    if v.1 then
      match start_step wid (some c) name now with
      | .error e => catchToFail wid (some c) name e now
      | .ok (_, st1) =>
        match execRes with
        | .error e => catchToFail wid st1 name e now
        | .ok out =>
          let htmlStep : Except String (Option String) :=
            match defn with
            | some d => if d.generates_html then htmlRes.map some else .ok none
            | none => .ok none
          match htmlStep with
          | .error e => catchToFail wid st1 name e now
          | .ok hf =>
            match complete_step wid st1 name (some out) hf now with
            | .error e => catchToFail wid st1 name e now
            | .ok (_, st2) => .ok (.completed out, st2)
    else .ok (.validationFailed v.2, some c)

end BaseStep

namespace InitWorkflowStep

open WorkflowState

/-- The params dict InitWorkflowStep passes to create. -/
def initParams (logPath timestamp : String) (timeWindow : Val) : Dict Val :=
  [("log_path", .vStr logPath),
   ("timestamp", .vStr timestamp),
   ("time_window", timeWindow)]

/-- The output data InitWorkflowStep.execute returns. -/
def initOutput (wid logPath timestamp : String) (timeWindow : Val) :
    Dict Val :=
  [("workflow_id", .vStr wid),
   ("log_path", .vStr logPath),
   ("timestamp", .vStr timestamp),
   ("time_window", timeWindow)]

/-- InitWorkflowStep.run: the overridden contract of the first step.
execute() raises when the scene_analysis workflow definition is missing
(wfSteps = none), else creates the state; then generate_html runs (its
outcome is the abstract htmlRes); then start_step and complete_step on the
fresh state.  Any exception is caught and only an initialization-failure
message is returned: unlike BaseStep.run, fail_step is never called. -/
def initRun (wfSteps : Option (List String)) (logPath timestamp : String)
    (timeWindow : Val) (htmlRes : Except String String) (st : Store)
    (wid now : String) : RunOutcome × Store :=
  match wfSteps with
  | none => (.initFailed "场景分析工作流定义不存在", st)
  | some steps =>
    let cr := create wid st "scene_analysis"
      (initParams logPath timestamp timeWindow) steps now
    match htmlRes with
    | .error e => (.initFailed e, cr.2)
    | .ok h =>
      match start_step wid cr.2 "init_workflow" now with
      | .error e => (.initFailed e, cr.2)
      | .ok (_, st1) =>
        match complete_step wid st1 "init_workflow"
            (some (initOutput wid logPath timestamp timeWindow)) (some h)
            now with
        | .error e => (.initFailed e, st1)
        | .ok (_, st2) => (.completed (initOutput wid logPath timestamp timeWindow), st2)

end InitWorkflowStep

/-- One State Store operation, for stating the trace invariant over every
operation of WorkflowState. -/
inductive Op : Type where
  | opCreate : String → Dict Val → List String → Op
  | opStartStep : String → Op
  | opCompleteStep : String → Option (Dict Val) → Option String → Op
  | opFailStep : String → String → Op
  | opSetGlobalData : String → Val → Op
  | opSetOutputPath : String → Op

/-- Apply one State Store operation to the persisted store; an operation
that raises (start, complete or fail on a missing state) saves nothing and
leaves the store as it was. -/
def applyOp (wid : String) (st : Store) (op : Op) (now : String) : Store :=
  match op with
  | .opCreate wft params steps =>
    (WorkflowState.create wid st wft params steps now).2
  | .opStartStep name =>
    match WorkflowState.start_step wid st name now with
    | .ok (_, st') => st'
    | .error _ => st
  | .opCompleteStep name od hf =>
    match WorkflowState.complete_step wid st name od hf now with
    | .ok (_, st') => st'
    | .error _ => st
  | .opFailStep name err =>
    match WorkflowState.fail_step wid st name err now with
    | .ok (_, st') => st'
    | .error _ => st
  | .opSetGlobalData k v => WorkflowState.set_global_data st k v now
  | .opSetOutputPath p => WorkflowState.set_output_path st p now

/-- The cursor invariant of the spec on one context:
0 <= current_step_index <= len(steps) (the lower bound is inherent in the
Nat model, since the code only ever sets the index to 0 or increments). -/
def ctxInv (c : WorkflowContext) : Prop :=
  c.current_step_index ≤ c.steps.length

/-- The cursor invariant on the store: trivial when no state exists. -/
def storeInv (st : Store) : Prop :=
  match st with
  | none => True
  | some c => ctxInv c

/-- The guard under which the amended cursor invariant is preserved:
complete_step is only invoked while the cursor is strictly below the number
of steps. -/
def opGuard (st : Store) (op : Op) : Prop :=
  match op, st with
  | .opCompleteStep _ _ _, some c => c.current_step_index < c.steps.length
  | _, _ => True

/-- Whether an operation is complete_step. -/
def Op.isComplete : Op → Bool
  | .opCompleteStep _ _ _ => true
  | _ => false

/-- Whether an operation is create. -/
def Op.isCreate : Op → Bool
  | .opCreate _ _ _ => true
  | _ => false

/-- The cursor of the persisted context, 0 when no state exists. -/
def idxOf (st : Store) : Nat :=
  match st with
  | none => 0
  | some c => c.current_step_index

/-- The number of steps of the persisted context, 0 when no state exists. -/
def lenOf (st : Store) : Nat :=
  match st with
  | none => 0
  | some c => c.steps.length

/-- The status of the persisted context, if any. -/
def statusOf (st : Store) : Option WorkflowStatus :=
  match st with
  | none => none
  | some c => some c.status

/-- The workflow_type of the persisted context, empty when absent. -/
def wtOf (st : Store) : String :=
  match st with
  | none => ""
  | some c => c.workflow_type

/-- The global_data of the persisted context, if any. -/
def gdOf (st : Store) : Option (Dict Val) :=
  match st with
  | none => none
  | some c => some c.global_data

/-- The step result stored for one step name, if any. -/
def stepResultOf (st : Store) (name : String) : Option (Dict Val) :=
  match st with
  | none => none
  | some c => c.step_results.get name

/-- One field of the step result stored for one step name, if any. -/
def recGet (c : WorkflowContext) (name field : String) : Option Val :=
  match c.step_results.get name with
  | none => none
  | some r => r.get field

/-- The search_files step definition registered by
StepRegistry.init_default_definitions. -/
def searchFilesDef : StepDefinition :=
  { name := "search_files"
    display_name := "搜索日志文件"
    description := "搜索目录中的 events 日志文件"
    step_type := .search
    mcp_tool_name := "search_events"
    inputs := ["log_path"]
    outputs := ["events_files"]
    order := 2 }

/-- The ordered step list of the scene_analysis workflow definition. -/
def sceneAnalysisSteps : List String :=
  ["init_workflow", "search_files", "extract_logs", "analyze_timeline",
   "generate_analysis", "finalize_report"]

/-- A sample persisted context: a one-step run as produced by create,
used to instantiate theorems at concrete inputs. -/
def sampleCtx : WorkflowContext :=
  { workflow_id := "w"
    workflow_type := "old"
    status := .running
    created_at := "T0"
    updated_at := "T0"
    params := []
    steps := ["a"]
    current_step_index := 0
    step_results := []
    global_data := []
    html_fragments := []
    output_path := none }

/-- The sample context parked in the terminal status failed. -/
def sampleFailedCtx : WorkflowContext := { sampleCtx with status := .failed }

/-- The sample context whose global_data binds log_path to the falsy
value 0 (a key that is present but does not survive the `or` chain of
validate_inputs). -/
def sampleFalsyCtx : WorkflowContext :=
  { sampleCtx with global_data := [("log_path", .vInt 0)] }

/-! Lemmas about the Python dict model. -/

theorem Dict.get_insert_self {α : Type} (d : Dict α) (k : String) (v : α) :
    (d.insert k v).get k = some v := by
  induction d with
  | nil => simp [Dict.insert, Dict.get]
  | cons hd t ih =>
    obtain ⟨k', v'⟩ := hd
    by_cases h : k' = k
    · simp [Dict.insert, Dict.get, h]
    · simp [Dict.insert, Dict.get, h, ih]

theorem Dict.get_insert_ne {α : Type} (d : Dict α) {k k' : String} (v : α)
    (h : k' ≠ k) : (d.insert k v).get k' = d.get k' := by
  induction d with
  | nil => simp [Dict.insert, Dict.get, Ne.symm h]
  | cons hd t ih =>
    obtain ⟨k1, v1⟩ := hd
    by_cases h1 : k1 = k
    · subst h1
      simp [Dict.insert, Dict.get, Ne.symm h]
    · by_cases h2 : k1 = k' <;> simp [Dict.insert, Dict.get, h, h1, h2, ih]

theorem Dict.get_mem {α : Type} {d : Dict α} {k : String} {v : α}
    (h : d.get k = some v) : (k, v) ∈ d := by
  induction d with
  | nil => simp [Dict.get] at h
  | cons hd t ih =>
    obtain ⟨k1, v1⟩ := hd
    by_cases h1 : k1 = k
    · subst h1
      simp [Dict.get] at h
      subst h
      exact List.mem_cons_self _ _
    · simp [Dict.get, h1] at h
      exact List.mem_cons_of_mem _ (ih h)

theorem Dict.insert_of_get_eq {α : Type} {d : Dict α} {k : String} {v : α}
    (h : d.get k = some v) : d.insert k v = d := by
  induction d with
  | nil => simp [Dict.get] at h
  | cons hd t ih =>
    obtain ⟨k1, v1⟩ := hd
    by_cases h1 : k1 = k
    · subst h1
      simp [Dict.get] at h
      subst h
      simp [Dict.insert]
    · simp [Dict.get, h1] at h
      simp [Dict.insert, h1, ih h]

theorem Dict.get_update_not_mem {α : Type} (other : Dict α) (d : Dict α)
    {k : String} (h : k ∉ other.keys) : (d.update other).get k = d.get k := by
  induction other generalizing d with
  | nil => rfl
  | cons hd t ih =>
    obtain ⟨k1, v1⟩ := hd
    simp [Dict.keys] at h
    obtain ⟨h1, h2⟩ := h
    show (Dict.update (d.insert k1 v1) t).get k = d.get k
    rw [ih _ (by simpa [Dict.keys] using h2)]
    exact Dict.get_insert_ne d v1 h1

theorem Dict.get_update_mem {α : Type} {other : Dict α} (d : Dict α)
    {k : String} {v : α} (hwf : other.WF) (h : (k, v) ∈ other) :
    (d.update other).get k = some v := by
  induction other generalizing d with
  | nil => cases h
  | cons hd t ih =>
    obtain ⟨k1, v1⟩ := hd
    have hks : k1 ∉ Dict.keys t ∧ Dict.WF t := by
      simpa [Dict.WF, Dict.keys, List.nodup_cons] using hwf
    rcases List.mem_cons.1 h with heq | hmem
    · obtain ⟨hk, hv⟩ := Prod.mk.injEq .. ▸ heq
      subst hk
      subst hv
      show (Dict.update (d.insert k v) t).get k = some v
      rw [Dict.get_update_not_mem t _ hks.1]
      exact Dict.get_insert_self d k v
    · exact ih _ hks.2 hmem

theorem Dict.update_eq_of_get {α : Type} {other : Dict α} {d : Dict α}
    (h : ∀ kv ∈ other, d.get kv.1 = some kv.2) : d.update other = d := by
  induction other generalizing d with
  | nil => rfl
  | cons hd t ih =>
    obtain ⟨k1, v1⟩ := hd
    have h1 : d.get k1 = some v1 := h (k1, v1) (List.mem_cons_self _ _)
    show Dict.update (d.insert k1 v1) t = d
    rw [Dict.insert_of_get_eq h1]
    exact ih (fun kv hkv => h kv (List.mem_cons_of_mem _ hkv))

theorem Dict.update_idem {α : Type} {other : Dict α} (d : Dict α)
    (hwf : other.WF) : (d.update other).update other = d.update other :=
  Dict.update_eq_of_get (fun _ hkv => Dict.get_update_mem d hwf hkv)

/-! Auxiliary facts about the enums and the value model. -/

theorem statusOfStr_statusToStr (s : WorkflowStatus) :
    statusOfStr (statusToStr s) = some s := by
  cases s <;> rfl

theorem Val.isNull_iff (v : Val) : v.isNull = true ↔ v = .vNull := by
  cases v <;> simp [Val.isNull]

/-! Claim theorems. -/

/-- C10: for a run with no persisted state, get_global_data returns the
supplied default and set_global_data is a silent no-op: no state is created
and neither operation raises (both are total on the absent store). -/
theorem c10_absent_run_global_data (key : String) (default value : Val)
    (now : String) :
    WorkflowState.get_global_data none key default = default ∧
    WorkflowState.set_global_data none key value now = none :=
  ⟨rfl, rfl⟩

/-- C9: serializing an execution context with to_dict and deserializing
with from_dict reproduces the context field-for-field, and the collection
fields pass through to_dict unchanged, so empty collections stay present
and empty in the serialized document. -/
theorem c9_serialization_roundtrip (c : WorkflowContext) :
    WorkflowContext.from_dict (WorkflowContext.to_dict c) = some c ∧
    (WorkflowContext.to_dict c).params = c.params ∧
    (WorkflowContext.to_dict c).step_results = c.step_results ∧
    (WorkflowContext.to_dict c).global_data = c.global_data ∧
    (WorkflowContext.to_dict c).html_fragments = c.html_fragments := by
  refine ⟨?_, rfl, rfl, rfl, rfl⟩
  obtain ⟨wid, wt, s, ca, ua, p, st, idx, sr, gd, hfr, op⟩ := c
  cases s <;> rfl

/-- C2 is false as stated: create on an id whose state is already present
does not fail with AlreadyExists and does not leave the existing persisted
context unchanged — it silently overwrites it.  Here a persisted context
with workflow_type old is replaced by a fresh one with workflow_type new. -/
theorem c2_counterexample :
    wtOf ((WorkflowState.create "w" (some sampleCtx) "new" [] [] "T1").2)
        = "new" ∧
    sampleCtx.workflow_type = "old" ∧
    (WorkflowState.create "w" (some sampleCtx) "new" [] [] "T1").2
        ≠ some sampleCtx :=
  ⟨rfl, rfl, fun h => absurd (congrArg wtOf h) (by decide)⟩

/-- C2 (amended): create never checks whether state is already present; it
unconditionally builds a fresh context with status running, cursor 0, the
given params and steps, empty result, data and fragment collections and no
output path, and persists it before returning — overwriting any existing
state for the id. -/
theorem c2_create_fresh_context (wid : String) (st : Store)
    (wft : String) (params : Dict Val) (steps : List String) (now : String) :
    (WorkflowState.create wid st wft params steps now).1.status = .running ∧
    (WorkflowState.create wid st wft params steps now).1.current_step_index = 0 ∧
    (WorkflowState.create wid st wft params steps now).1.params = params ∧
    (WorkflowState.create wid st wft params steps now).1.steps = steps ∧
    (WorkflowState.create wid st wft params steps now).1.step_results = [] ∧
    (WorkflowState.create wid st wft params steps now).1.global_data = [] ∧
    (WorkflowState.create wid st wft params steps now).1.html_fragments = [] ∧
    (WorkflowState.create wid st wft params steps now).1.output_path = none ∧
    (WorkflowState.create wid st wft params steps now).2
        = some (WorkflowState.create wid st wft params steps now).1 :=
  ⟨rfl, rfl, rfl, rfl, rfl, rfl, rfl, rfl, rfl⟩

/-- C8 is false as stated: a context already in the terminal status failed
is still mutated by set_global_data — the persisted global_data changes
from empty to a one-key dict. -/
theorem c8_counterexample :
    sampleFailedCtx.status = .failed ∧
    sampleFailedCtx.global_data = [] ∧
    gdOf (WorkflowState.set_global_data (some sampleFailedCtx) "k"
        (.vInt 1) "T2") = some [("k", .vInt 1)] :=
  ⟨rfl, rfl, rfl⟩

/-- C8 (amended): no State Store operation consults the lifecycle status:
on a context in a terminal status (completed, failed or cancelled),
set_global_data still writes the key, start_step still succeeds and
overwrites the step result, and complete_step still succeeds and advances
the cursor.  Terminal immutability is not enforced by the store. -/
theorem c8_terminal_status_not_enforced (wid : String)
    (c : WorkflowContext) (k : String) (v : Val) (name now now2 : String)
    (od : Option (Dict Val)) (hf : Option String)
    (_h : c.status = .failed ∨ c.status = .completed ∨ c.status = .cancelled) :
    WorkflowState.set_global_data (some c) k v now
        = some { c with global_data := c.global_data.insert k v
                        updated_at := now } ∧
    WorkflowState.start_step wid (some c) name now2
        = .ok (WorkflowState.startedCtx c name now2,
            some (WorkflowState.startedCtx c name now2)) ∧
    WorkflowState.complete_step wid (some c) name od hf now2
        = .ok (WorkflowState.completedCtx c name od hf now2,
            some (WorkflowState.completedCtx c name od hf now2)) ∧
    (WorkflowState.completedCtx c name od hf now2).current_step_index
        = c.current_step_index + 1 :=
  ⟨rfl, rfl, rfl, rfl⟩

/-- Witness for c8_terminal_status_not_enforced at a concrete failed
context. -/
theorem c8_terminal_status_not_enforced_witness :
    (sampleFailedCtx.status = .failed ∨ sampleFailedCtx.status = .completed
        ∨ sampleFailedCtx.status = .cancelled) ∧
    (WorkflowState.set_global_data (some sampleFailedCtx) "k" (.vInt 1) "T2"
        = some { sampleFailedCtx with
                   global_data := sampleFailedCtx.global_data.insert "k" (.vInt 1)
                   updated_at := "T2" } ∧
     WorkflowState.start_step "w" (some sampleFailedCtx) "a" "T3"
        = .ok (WorkflowState.startedCtx sampleFailedCtx "a" "T3",
            some (WorkflowState.startedCtx sampleFailedCtx "a" "T3")) ∧
     WorkflowState.complete_step "w" (some sampleFailedCtx) "a" none none "T3"
        = .ok (WorkflowState.completedCtx sampleFailedCtx "a" none none "T3",
            some (WorkflowState.completedCtx sampleFailedCtx "a" none none "T3")) ∧
     (WorkflowState.completedCtx sampleFailedCtx "a" none none "T3").current_step_index
        = sampleFailedCtx.current_step_index + 1) :=
  ⟨Or.inl rfl,
   c8_terminal_status_not_enforced "w" sampleFailedCtx "k" (.vInt 1) "a" "T2"
     "T3" none none (Or.inl rfl)⟩

/-- Helper: the fields of the context produced by failedCtx — the step
result for name carries status failed, the error message and the
completion timestamp; the overall status is failed; the cursor is
unchanged. -/
theorem failedCtx_fields (c : WorkflowContext) (name e now : String) :
    recGet (WorkflowState.failedCtx c name e now) name "status"
        = some (.vStr "failed") ∧
    recGet (WorkflowState.failedCtx c name e now) name "error"
        = some (.vStr e) ∧
    recGet (WorkflowState.failedCtx c name e now) name "completed_at"
        = some (.vStr now) ∧
    (WorkflowState.failedCtx c name e now).status = .failed ∧
    (WorkflowState.failedCtx c name e now).current_step_index
        = c.current_step_index := by
  refine ⟨?_, ?_, ?_, rfl, rfl⟩ <;>
    · simp only [recGet, WorkflowState.failedCtx]
      rw [Dict.get_insert_self]
      simp only [Dict.get_insert_self, stepStatusToStr,
        Dict.get_insert_ne _ _ (show ("status" : String) ≠ "error" by decide),
        Dict.get_insert_ne _ _ (show ("status" : String) ≠ "completed_at" by decide),
        Dict.get_insert_ne _ _ (show ("completed_at" : String) ≠ "error" by decide)]

/-- C5: fail_step sets the named step result to status failed with the
error message and a completion timestamp, sets the overall status to
failed, and never changes current_step_index. -/
theorem c5_fail_step_marks_failed (wid : String) (c : WorkflowContext)
    (name e now : String) :
    WorkflowState.fail_step wid (some c) name e now
        = .ok (WorkflowState.failedCtx c name e now,
            some (WorkflowState.failedCtx c name e now)) ∧
    recGet (WorkflowState.failedCtx c name e now) name "status"
        = some (.vStr "failed") ∧
    recGet (WorkflowState.failedCtx c name e now) name "error"
        = some (.vStr e) ∧
    recGet (WorkflowState.failedCtx c name e now) name "completed_at"
        = some (.vStr now) ∧
    (WorkflowState.failedCtx c name e now).status = .failed ∧
    (WorkflowState.failedCtx c name e now).current_step_index
        = c.current_step_index := by
  obtain ⟨h1, h2, h3, h4, h5⟩ := failedCtx_fields c name e now
  exact ⟨rfl, h1, h2, h3, h4, h5⟩

/-- C7: calling start_step twice in succession overwrites the step result
with exactly the fresh running record of the second call (status running,
start timestamp from the second call), discarding the stale record, and
start_step never moves current_step_index. -/
theorem c7_start_step_twice (wid : String) (c : WorkflowContext)
    (name now1 now2 : String) :
    WorkflowState.start_step wid (some c) name now1
        = .ok (WorkflowState.startedCtx c name now1,
            some (WorkflowState.startedCtx c name now1)) ∧
    WorkflowState.start_step wid
        (some (WorkflowState.startedCtx c name now1)) name now2
        = .ok (WorkflowState.startedCtx
              (WorkflowState.startedCtx c name now1) name now2,
            some (WorkflowState.startedCtx
              (WorkflowState.startedCtx c name now1) name now2)) ∧
    (WorkflowState.startedCtx (WorkflowState.startedCtx c name now1) name
        now2).step_results.get name
        = some (WorkflowState.runningRec name now2) ∧
    (WorkflowState.runningRec name now2).get "status"
        = some (.vStr "running") ∧
    (WorkflowState.runningRec name now2).get "started_at"
        = some (.vStr now2) ∧
    (WorkflowState.startedCtx (WorkflowState.startedCtx c name now1) name
        now2).current_step_index = c.current_step_index ∧
    (WorkflowState.startedCtx c name now1).current_step_index
        = c.current_step_index := by
  refine ⟨rfl, rfl, ?_, rfl, rfl, rfl, rfl⟩
  simp only [WorkflowState.startedCtx]
  exact Dict.get_insert_self _ name _

/-- C1 is false as stated: the cursor invariant does not survive a
complete_step invoked on a run whose cursor already equals len(steps).
Create a one-step run and complete its step twice: the cursor ends at 2
while the step list has length 1, breaking
current_step_index <= len(steps). -/
theorem c1_counterexample :
    lenOf (applyOp "w" (applyOp "w"
        ((WorkflowState.create "w" none "t" [] ["a"] "T").2)
        (.opCompleteStep "a" none none) "T")
        (.opCompleteStep "a" none none) "T") = 1 ∧
    idxOf (applyOp "w" (applyOp "w"
        ((WorkflowState.create "w" none "t" [] ["a"] "T").2)
        (.opCompleteStep "a" none none) "T")
        (.opCompleteStep "a" none none) "T") = 2 :=
  ⟨rfl, rfl⟩

/-- C1 (amended): after every State Store operation the cursor invariant
0 <= current_step_index <= len(steps) is preserved, provided complete_step
is only invoked while the cursor is strictly below len(steps) (the code
increments unconditionally, so a further complete_step at
cursor = len(steps) pushes the cursor past the bound); the cursor changes
only on complete_step, and there by exactly one (create resets it to 0 for
the fresh context it writes). -/
theorem c1_cursor_invariant (wid : String) (st : Store) (op : Op)
    (now : String) (hInv : storeInv st) (hGuard : opGuard st op) :
    storeInv (applyOp wid st op now) ∧
    ∀ c c', st = some c → applyOp wid st op now = some c' →
      (op.isComplete = true →
        c'.current_step_index = c.current_step_index + 1) ∧
      (op.isComplete = false → op.isCreate = false →
        c'.current_step_index = c.current_step_index) := by
  cases op <;> cases st <;>
    simp_all [applyOp, WorkflowState.create, WorkflowState.start_step,
      WorkflowState.complete_step, WorkflowState.fail_step,
      WorkflowState.set_global_data, WorkflowState.set_output_path,
      WorkflowState.startedCtx, WorkflowState.completedCtx,
      WorkflowState.failedCtx, storeInv, ctxInv, opGuard, Op.isComplete,
      Op.isCreate]
  all_goals omega

/-- Witness for c1_cursor_invariant: a run at cursor 0 of 1 steps, with
complete_step invoked under the guard. -/
theorem c1_cursor_invariant_witness :
    storeInv (some sampleCtx) ∧
    opGuard (some sampleCtx) (.opCompleteStep "a" none none) ∧
    (storeInv (applyOp "w" (some sampleCtx)
        (.opCompleteStep "a" none none) "T") ∧
     ∀ c c', some sampleCtx = some c →
       applyOp "w" (some sampleCtx) (.opCompleteStep "a" none none) "T"
           = some c' →
       ((Op.opCompleteStep "a" none none).isComplete = true →
         c'.current_step_index = c.current_step_index + 1) ∧
       ((Op.opCompleteStep "a" none none).isComplete = false →
         (Op.opCompleteStep "a" none none).isCreate = false →
         c'.current_step_index = c.current_step_index)) :=
  ⟨Nat.zero_le _, Nat.zero_lt_one,
   c1_cursor_invariant "w" (some sampleCtx) (.opCompleteStep "a" none none)
     "T" (Nat.zero_le _) Nat.zero_lt_one⟩

/-- C6: complete_step followed immediately by load yields a context whose
global_data contains every key of output_data with its merged value, and a
second complete_step with identical output_data leaves global_data
unchanged (the merge is idempotent on global_data). -/
theorem c6_complete_step_merge (wid : String) (c : WorkflowContext)
    (name : String) (out : Dict Val) (hf hf2 : Option String)
    (now now2 : String) (hwf : Dict.WF out) :
    WorkflowState.complete_step wid (some c) name (some out) hf now
        = .ok (WorkflowState.completedCtx c name (some out) hf now,
            some (WorkflowState.completedCtx c name (some out) hf now)) ∧
    WorkflowState.load
        (some (WorkflowState.completedCtx c name (some out) hf now))
        = some (WorkflowState.completedCtx c name (some out) hf now) ∧
    (∀ k v, out.get k = some v →
      (WorkflowState.completedCtx c name (some out) hf now).global_data.get k
          = some v) ∧
    (WorkflowState.completedCtx
        (WorkflowState.completedCtx c name (some out) hf now) name (some out)
        hf2 now2).global_data
      = (WorkflowState.completedCtx c name (some out) hf now).global_data := by
  refine ⟨rfl, rfl, ?_, ?_⟩
  · intro k v hk
    have hmem := Dict.get_mem hk
    have hne : out.isEmpty = false := by
      cases out with
      | nil => cases hmem
      | cons hd t => rfl
    simp only [WorkflowState.completedCtx, hne, Bool.not_false, if_true]
    exact Dict.get_update_mem c.global_data hwf hmem
  · cases out with
    | nil => rfl
    | cons hd t =>
      simp only [WorkflowState.completedCtx, List.isEmpty_cons,
        Bool.not_false, if_true]
      exact Dict.update_idem c.global_data hwf

/-- Witness for c6_complete_step_merge at a concrete run and a one-key
output map. -/
theorem c6_complete_step_merge_witness :
    Dict.WF [("x", Val.vInt 1)] ∧
    (WorkflowState.complete_step "w" (some sampleCtx) "a"
        (some [("x", Val.vInt 1)]) none "T1"
        = .ok (WorkflowState.completedCtx sampleCtx "a"
              (some [("x", Val.vInt 1)]) none "T1",
            some (WorkflowState.completedCtx sampleCtx "a"
              (some [("x", Val.vInt 1)]) none "T1")) ∧
     WorkflowState.load (some (WorkflowState.completedCtx sampleCtx "a"
            (some [("x", Val.vInt 1)]) none "T1"))
        = some (WorkflowState.completedCtx sampleCtx "a"
            (some [("x", Val.vInt 1)]) none "T1") ∧
     (∀ k v, Dict.get [("x", Val.vInt 1)] k = some v →
       (WorkflowState.completedCtx sampleCtx "a" (some [("x", Val.vInt 1)])
           none "T1").global_data.get k = some v) ∧
     (WorkflowState.completedCtx
         (WorkflowState.completedCtx sampleCtx "a" (some [("x", Val.vInt 1)])
           none "T1") "a" (some [("x", Val.vInt 1)]) none "T2").global_data
       = (WorkflowState.completedCtx sampleCtx "a" (some [("x", Val.vInt 1)])
           none "T1").global_data) :=
  ⟨by simp [Dict.WF, Dict.keys],
   c6_complete_step_merge "w" sampleCtx "a" [("x", Val.vInt 1)] none none
     "T1" "T2" (by simp [Dict.WF, Dict.keys])⟩

/-- C3 is false in its converse direction: a declared input key that is
present in global_data does not always validate.  Here log_path is present
in global_data with the falsy value 0 (and absent from params), yet the
step contract returns a ValidationFailure, because validate_inputs tests
the resolved value of the `or` chain against None instead of key
presence. -/
theorem c3_counterexample :
    sampleFalsyCtx.global_data.get "log_path" = some (.vInt 0) ∧
    searchFilesDef.inputs = ["log_path"] ∧
    BaseStep.run "w" "search_files" (some sampleFalsyCtx)
        (some searchFilesDef) (.ok []) (.ok "h") "T"
      = .ok (.validationFailed "缺少输入数据: log_path", some sampleFalsyCtx) :=
  ⟨rfl, rfl, rfl⟩

/-- C3 (amended): validation succeeds exactly when every declared input
key resolves to a non-None value under the chain global_data-value `or`
params-value — so a key present with a falsy global value and no param, or
present with value None, is still treated as missing; whenever some
declared key is a key of neither global_data nor params, the step contract
returns a ValidationFailure with the persisted state unchanged; and when
validation succeeds, run never returns a ValidationFailure, so execution
proceeds. -/
theorem c3_input_validation (c : WorkflowContext) (d : StepDefinition)
    (name wid now : String) (execRes : Except String (Dict Val))
    (htmlRes : Except String String) :
    ((BaseStep.validate_inputs (some c) (some d)).1 = true ↔
      ∀ k ∈ d.inputs, BaseStep.resolveInput (some c) k ≠ .vNull) ∧
    ((∃ k ∈ d.inputs, c.global_data.get k = none ∧ c.params.get k = none) →
      BaseStep.run wid name (some c) (some d) execRes htmlRes now
        = .ok (.validationFailed
            (BaseStep.validate_inputs (some c) (some d)).2, some c)) ∧
    ((BaseStep.validate_inputs (some c) (some d)).1 = true →
      ∀ msg st2, BaseStep.run wid name (some c) (some d) execRes htmlRes now
        ≠ .ok (.validationFailed msg, st2)) := by
  have hchar : (BaseStep.validate_inputs (some c) (some d)).1
      = (d.inputs.filter
          (fun k => (BaseStep.resolveInput (some c) k).isNull)).isEmpty := by
    simp only [BaseStep.validate_inputs]
    by_cases hm : (d.inputs.filter
        (fun k => (BaseStep.resolveInput (some c) k).isNull)).isEmpty <;>
      simp [hm]
  have hiff : (d.inputs.filter
        (fun k => (BaseStep.resolveInput (some c) k).isNull)).isEmpty = true ↔
      ∀ k ∈ d.inputs, BaseStep.resolveInput (some c) k ≠ .vNull := by
    simp [List.isEmpty_iff, List.filter_eq_nil_iff, Val.isNull_iff]
  refine ⟨by rw [hchar]; exact hiff, ?_, ?_⟩
  · intro h
    obtain ⟨k, hk, hg, hp⟩ := h
    have hres : BaseStep.resolveInput (some c) k = .vNull := by
      simp [BaseStep.resolveInput, BaseStep.get_input, BaseStep.get_param,
        WorkflowState.get_global_data, WorkflowState.load, hg, hp, Val.truthy]
    have hmem : k ∈ d.inputs.filter
        (fun k => (BaseStep.resolveInput (some c) k).isNull) :=
      List.mem_filter.2 ⟨hk, by simp [hres, Val.isNull]⟩
    have hval : (BaseStep.validate_inputs (some c) (some d)).1 = false := by
      rw [hchar]
      rcases hq : d.inputs.filter
          (fun k => (BaseStep.resolveInput (some c) k).isNull) with _ | ⟨a, t⟩
      · rw [hq] at hmem
        cases hmem
      · rfl
    simp [BaseStep.run, hval]
  · intro hval msg st2
    rcases execRes with e | out <;> rcases htmlRes with he | hh <;>
      by_cases hg : d.generates_html <;>
      simp [BaseStep.run, hval, hg, BaseStep.catchToFail, Except.map,
        WorkflowState.start_step, WorkflowState.fail_step,
        WorkflowState.complete_step]

/-- Witness for c3_input_validation, exercising both sides: against a
context with empty global_data and params the declared key log_path
resolves from neither map and run returns the ValidationFailure; against a
context whose global_data binds log_path to a truthy string, validation
succeeds and run never returns a ValidationFailure. -/
theorem c3_input_validation_witness :
    ((∃ k ∈ searchFilesDef.inputs, sampleCtx.global_data.get k = none ∧
        sampleCtx.params.get k = none) ∧
     BaseStep.run "w" "search_files" (some sampleCtx) (some searchFilesDef)
        (.ok []) (.ok "h") "T"
        = .ok (.validationFailed
            (BaseStep.validate_inputs (some sampleCtx)
              (some searchFilesDef)).2, some sampleCtx)) ∧
    ((BaseStep.validate_inputs
        (some { sampleCtx with
                  global_data := [("log_path", Val.vStr "/tmp/x")] })
        (some searchFilesDef)).1 = true ∧
     ∀ msg st2, BaseStep.run "w" "search_files"
        (some { sampleCtx with
                  global_data := [("log_path", Val.vStr "/tmp/x")] })
        (some searchFilesDef) (.ok []) (.ok "h") "T"
        ≠ .ok (.validationFailed msg, st2)) := by
  have hex : ∃ k ∈ searchFilesDef.inputs, sampleCtx.global_data.get k = none
      ∧ sampleCtx.params.get k = none :=
    ⟨"log_path", by simp [searchFilesDef], rfl, rfl⟩
  have hok : (BaseStep.validate_inputs
      (some { sampleCtx with
                global_data := [("log_path", Val.vStr "/tmp/x")] })
      (some searchFilesDef)).1 = true := rfl
  exact ⟨⟨hex,
      (c3_input_validation sampleCtx searchFilesDef "search_files" "w" "T"
        (.ok []) (.ok "h")).2.1 hex⟩,
    ⟨hok,
      (c3_input_validation
        { sampleCtx with global_data := [("log_path", Val.vStr "/tmp/x")] }
        searchFilesDef "search_files" "w" "T" (.ok []) (.ok "h")).2.2 hok⟩⟩

/-- C4 is false as stated for InitWorkflowStep: when artifact rendering
raises after the state has been created, the overridden run catches the
exception and returns an initialization-failure message without calling
fail_step — the persisted run stays in status running with no step result
at all, instead of recording a failed step result. -/
theorem c4_counterexample :
    (InitWorkflowStep.initRun (some sceneAnalysisSteps) "L" "TS" (.vInt 20)
        (.error "boom") none "w4" "T").1 = .initFailed "boom" ∧
    statusOf (InitWorkflowStep.initRun (some sceneAnalysisSteps) "L" "TS"
        (.vInt 20) (.error "boom") none "w4" "T").2 = some .running ∧
    stepResultOf (InitWorkflowStep.initRun (some sceneAnalysisSteps) "L"
        "TS" (.vInt 20) (.error "boom") none "w4" "T").2 "init_workflow"
      = none :=
  ⟨rfl, rfl, rfl⟩

/-- C4 (amended): in BaseStep.run on an existing run that passes
validation, an exception from the step logic or from artifact rendering is
caught and converted to fail_step with the exception message — the caller
receives the structured step-failure result and the persisted step result
records status failed with the error, status becomes failed and the cursor
does not move; InitWorkflowStep.run, by contrast, catches the rendering
exception but never calls fail_step: it returns an initialization-failure
message and leaves the freshly created context in status running with no
step result. -/
theorem c4_exception_handling (wid name : String) (c : WorkflowContext)
    (d : StepDefinition) (out : Dict Val) (e : String)
    (htmlRes : Except String String) (now : String)
    (hval : (BaseStep.validate_inputs (some c) (some d)).1 = true)
    (hgen : d.generates_html = true) :
    BaseStep.run wid name (some c) (some d) (.error e) htmlRes now
        = .ok (.stepFailed e,
            some (WorkflowState.failedCtx
              (WorkflowState.startedCtx c name now) name e now)) ∧
    BaseStep.run wid name (some c) (some d) (.ok out) (.error e) now
        = .ok (.stepFailed e,
            some (WorkflowState.failedCtx
              (WorkflowState.startedCtx c name now) name e now)) ∧
    recGet (WorkflowState.failedCtx (WorkflowState.startedCtx c name now)
        name e now) name "status" = some (.vStr "failed") ∧
    recGet (WorkflowState.failedCtx (WorkflowState.startedCtx c name now)
        name e now) name "error" = some (.vStr e) ∧
    (WorkflowState.failedCtx (WorkflowState.startedCtx c name now) name e
        now).status = .failed ∧
    (WorkflowState.failedCtx (WorkflowState.startedCtx c name now) name e
        now).current_step_index = c.current_step_index ∧
    ∀ steps lp ts tw e2 st2 wid2 now2,
      InitWorkflowStep.initRun (some steps) lp ts tw (.error e2) st2 wid2
          now2
        = (.initFailed e2,
           some (WorkflowState.create wid2 st2 "scene_analysis"
             (InitWorkflowStep.initParams lp ts tw) steps now2).1) ∧
      stepResultOf (InitWorkflowStep.initRun (some steps) lp ts tw
          (.error e2) st2 wid2 now2).2 "init_workflow" = none ∧
      statusOf (InitWorkflowStep.initRun (some steps) lp ts tw (.error e2)
          st2 wid2 now2).2 = some .running := by
  obtain ⟨h1, h2, _h3, h4, h5⟩ :=
    failedCtx_fields (WorkflowState.startedCtx c name now) name e now
  refine ⟨?_, ?_, h1, h2, h4, h5, fun steps lp ts tw e2 st2 wid2 now2 =>
    ⟨rfl, rfl, rfl⟩⟩
  · simp [BaseStep.run, hval, BaseStep.catchToFail,
      WorkflowState.start_step, WorkflowState.fail_step]
  · simp [BaseStep.run, hval, hgen, BaseStep.catchToFail, Except.map,
      WorkflowState.start_step, WorkflowState.fail_step]

/-- Witness for c4_exception_handling at a concrete run with a
no-declared-input, HTML-generating step definition. -/
theorem c4_exception_handling_witness :
    (BaseStep.validate_inputs (some sampleCtx)
        (some { searchFilesDef with inputs := [] })).1 = true ∧
    { searchFilesDef with inputs := ([] : List String) }.generates_html
        = true ∧
    (BaseStep.run "w" "search_files" (some sampleCtx)
        (some { searchFilesDef with inputs := [] }) (.error "boom")
        (.ok "h") "T"
        = .ok (.stepFailed "boom",
            some (WorkflowState.failedCtx
              (WorkflowState.startedCtx sampleCtx "search_files" "T")
              "search_files" "boom" "T")) ∧
     BaseStep.run "w" "search_files" (some sampleCtx)
        (some { searchFilesDef with inputs := [] }) (.ok [])
        (.error "boom") "T"
        = .ok (.stepFailed "boom",
            some (WorkflowState.failedCtx
              (WorkflowState.startedCtx sampleCtx "search_files" "T")
              "search_files" "boom" "T")) ∧
     recGet (WorkflowState.failedCtx
        (WorkflowState.startedCtx sampleCtx "search_files" "T")
        "search_files" "boom" "T") "search_files" "status"
        = some (.vStr "failed") ∧
     recGet (WorkflowState.failedCtx
        (WorkflowState.startedCtx sampleCtx "search_files" "T")
        "search_files" "boom" "T") "search_files" "error"
        = some (.vStr "boom") ∧
     (WorkflowState.failedCtx
        (WorkflowState.startedCtx sampleCtx "search_files" "T")
        "search_files" "boom" "T").status = .failed ∧
     (WorkflowState.failedCtx
        (WorkflowState.startedCtx sampleCtx "search_files" "T")
        "search_files" "boom" "T").current_step_index
        = sampleCtx.current_step_index ∧
     ∀ steps lp ts tw e2 st2 wid2 now2,
       InitWorkflowStep.initRun (some steps) lp ts tw (.error e2) st2 wid2
           now2
         = (.initFailed e2,
            some (WorkflowState.create wid2 st2 "scene_analysis"
              (InitWorkflowStep.initParams lp ts tw) steps now2).1) ∧
       stepResultOf (InitWorkflowStep.initRun (some steps) lp ts tw
           (.error e2) st2 wid2 now2).2 "init_workflow" = none ∧
       statusOf (InitWorkflowStep.initRun (some steps) lp ts tw (.error e2)
           st2 wid2 now2).2 = some .running) :=
  ⟨rfl, rfl,
   c4_exception_handling "w" "search_files" sampleCtx
     { searchFilesDef with inputs := [] } [] "boom" (.ok "h") "T" rfl rfl⟩
